import Mathlib

/-!
Verification development for the FileMesh codec of `roblox_utils_cli`
(`src/filemesh.rs`, `src/ser.rs`, `src/mesh_types.rs`, `src/error.rs`).

Modelling conventions (shallow embedding):

* A byte buffer is a `List Nat`.  Genuine bytes are values `< 256`.
* 32-bit IEEE floats are modelled as exact rationals (`ℚ`).  The arithmetic the
  codec performs on floats (`1.0 - v`, `* 0.5`, `* 2.0`) is exact on the values
  the claims are about, so `ℚ` is a faithful value model.  A serialized float
  occupies four byte slots, as in the real format; the value is carried
  injectively in the first slot, offset past the real-byte range (`256 +
  encQ q`), so float records have exactly the same widths (40/36/12 bytes)
  as on disk and all stride arithmetic of the source is reproduced verbatim.
  A raw (non-float-carrying) 4-byte group read as a float decodes through its
  little-endian 32-bit pattern; no claim depends on the numeric value a raw
  pattern denotes.
* Rust `usize`/`u32` values are `Nat`, with a 64-bit target assumed (the
  only one the crate is built for).  `as u32` casts are modelled with
  `% 2 ^ 32`, `usize::from_str` rejects values `≥ 2 ^ 64`, and the one
  `usize` multiplication fed by attacker-controlled data (`num_faces * 9` in
  `parse_v1`) is modelled with the release-profile wrapping semantics
  (`% 2 ^ 64`); in a debug build that multiplication would panic on overflow
  instead of wrapping, which only moves the panic earlier on the same inputs.
* Fallible Rust functions returning `Result<T, ConversionError>` are modelled
  with the `POut` outcome type below; the extra `panic` outcome models the
  deterministic Rust panics: the `/ num_verts` division by zero in `parse_v4`
  and the `Vec::with_capacity` capacity-overflow panics in `parse_v1` (a
  requested capacity above `isize::MAX` bytes).  Allocation failure for
  legal capacities (machine-dependent resource exhaustion) is not modelled.
  Error payload strings are elided: only the error constructor (kind) is
  modelled.
-/

set_option linter.unusedVariables false

/-- `ConversionError` from `src/error.rs`, payloads elided.
`Io` covers `byteorder`/`read_exact` end-of-input failures,
`RobloxMeshParse` the `parse_err` malformed-header/body failures. -/
inductive ConversionError where
  | ObjParse
  | NoMeshData
  | Io
  | Unsupported
  | RobloxMeshParse
deriving DecidableEq, Repr

/-- Outcome of a fallible Rust computation: `Ok`, `Err`, or a panic/abort. -/
inductive POut (α : Type) where
  | ok (a : α)
  | err (e : ConversionError)
  | panic
deriving DecidableEq, Repr

def POut.bindF {α β : Type} : POut α → (α → POut β) → POut β
  | .ok a, f => f a
  | .err e, _ => .err e
  | .panic, _ => .panic

instance : Monad POut where
  pure := POut.ok
  bind := POut.bindF

@[simp] theorem POut.ok_bind {α β : Type} (a : α) (f : α → POut β) :
    (POut.ok a >>= f) = f a := rfl

@[simp] theorem POut.err_bind {α β : Type} (e : ConversionError) (f : α → POut β) :
    ((POut.err e : POut α) >>= f) = POut.err e := rfl

@[simp] theorem POut.panic_bind {α β : Type} (f : α → POut β) :
    ((POut.panic : POut α) >>= f) = POut.panic := rfl

@[simp] theorem POut.pure_eq {α : Type} (a : α) : (pure a : POut α) = POut.ok a := rfl

/-- `IntermediateVertex` from `src/mesh_types.rs`: position, normal, uv. -/
structure IntermediateVertex where
  pos : ℚ × ℚ × ℚ
  normal : ℚ × ℚ × ℚ
  uv : ℚ × ℚ
deriving DecidableEq, Repr

/-- `IntermediateMesh` from `src/mesh_types.rs`: vertex list and triangle list.
A face is three indices into the vertex list (`[u32; 3]` in the source). -/
structure IntermediateMesh where
  vertices : List IntermediateVertex
  faces : List (Nat × Nat × Nat)
deriving DecidableEq, Repr

def dummyVertex : IntermediateVertex := ⟨(0, 0, 0), (0, 0, 0), (0, 0)⟩

/-! ### Injective rational <-> Nat coding used to carry f32 values in byte slots -/

def encInt (n : Int) : Nat := if 0 ≤ n then 2 * n.toNat else 2 * (-n).toNat - 1

def decInt (k : Nat) : Int := if k % 2 = 0 then ((k / 2 : Nat) : Int) else -(((k + 1) / 2 : Nat) : Int)

/-- Injective code of a rational into `Nat` (sign/num paired with den). -/
def encQ (q : ℚ) : Nat := Nat.pair (encInt q.num) q.den

/-- Left inverse of `encQ`. -/
def decQ (n : Nat) : ℚ := ((decInt (Nat.unpair n).1 : ℚ)) / (((Nat.unpair n).2 : ℚ))

/-! ### Little-endian byte readers (the `byteorder` + `Cursor` layer).
The cursor is modelled by the unconsumed suffix of the buffer; end-of-input
produces the `Io` error, as `byteorder` reads do in the source. -/

def readU8 : List Nat → POut (Nat × List Nat)
  | [] => .err .Io
  | b :: r => .ok (b, r)

def readI8 : List Nat → POut (Nat × List Nat)
  | [] => .err .Io
  | b :: r => .ok (b, r)

def readU16 : List Nat → POut (Nat × List Nat)
  | b0 :: b1 :: r => .ok (b0 + 256 * b1, r)
  | _ => .err .Io

def readU32 : List Nat → POut (Nat × List Nat)
  | b0 :: b1 :: b2 :: b3 :: r => .ok (b0 + 256 * b1 + 65536 * b2 + 16777216 * b3, r)
  | _ => .err .Io

/-- `read_exact(&mut rgba)` for the discarded 4-byte RGBA block. -/
def readExact4 : List Nat → POut (List Nat)
  | _ :: _ :: _ :: _ :: r => .ok r
  | _ => .err .Io

/-- Read a 32-bit float.  A float-carrying slot (first byte `≥ 256`) yields the
carried rational; a raw 4-byte group decodes through its LE 32-bit pattern. -/
def readF32 : List Nat → POut (ℚ × List Nat)
  | b0 :: b1 :: b2 :: b3 :: r =>
    .ok ((if 256 ≤ b0 then decQ (b0 - 256) else ((b0 + 256 * b1 + 65536 * b2 + 16777216 * b3 : Nat) : ℚ)), r)
  | _ => .err .Io

/-- Serialize a float value into its four byte slots. -/
def f32ToBytes (q : ℚ) : List Nat := [256 + encQ q, 0, 0, 0]

/-- Little-endian serialization of a `u16` value. -/
def writeU16 (n : Nat) : List Nat := [n % 256, n / 256 % 256]

/-- Little-endian serialization of a `u32` value (truncating, as `as u32`). -/
def writeU32 (n : Nat) : List Nat :=
  [n % 256, n / 256 % 256, n / 65536 % 256, n / 16777216 % 256]

/-! ### Text layer: UTF-8 validation/decoding, `str::lines`, `str::trim`,
decimal/float literal parsing.  Code points are `Nat`s. -/

def utf8Cont (c : Nat) : Bool := 128 ≤ c && c ≤ 191

/-- `std::str::from_utf8` modelled as a decoder to code points (RFC 3629
state machine: overlong encodings, surrogates and values above U+10FFFF are
rejected, exactly as in Rust). -/
def utf8Decode : List Nat → Option (List Nat)
  | [] => some []
  | b :: rest =>
    if b ≤ 127 then (utf8Decode rest).map (fun t => b :: t)
    else if 194 ≤ b && b ≤ 223 then
      match rest with
      | c :: r2 =>
        if utf8Cont c then (utf8Decode r2).map (fun t => ((b - 192) * 64 + (c - 128)) :: t)
        else none
      | [] => none
    else if 224 ≤ b && b ≤ 239 then
      match rest with
      | c1 :: c2 :: r2 =>
        let lo1 := if b = 224 then 160 else 128
        let hi1 := if b = 237 then 159 else 191
        if (lo1 ≤ c1 && c1 ≤ hi1) && utf8Cont c2 then
          (utf8Decode r2).map (fun t => ((b - 224) * 4096 + (c1 - 128) * 64 + (c2 - 128)) :: t)
        else none
      | _ => none
    else if 240 ≤ b && b ≤ 244 then
      match rest with
      | c1 :: c2 :: c3 :: r2 =>
        let lo1 := if b = 240 then 144 else 128
        let hi1 := if b = 244 then 143 else 191
        if (lo1 ≤ c1 && c1 ≤ hi1) && (utf8Cont c2 && utf8Cont c3) then
          (utf8Decode r2).map
            (fun t => ((b - 240) * 262144 + (c1 - 128) * 4096 + (c2 - 128) * 64 + (c3 - 128)) :: t)
        else none
      | _ => none
    else none

/-- The Unicode `White_Space` code points (what Rust `char::is_whitespace`,
hence `str::trim`, strips). -/
def wsChars : List Nat :=
  [9, 10, 11, 12, 13, 32, 133, 160, 5760, 8192, 8193, 8194, 8195, 8196, 8197,
   8198, 8199, 8200, 8201, 8202, 8232, 8233, 8239, 8287, 12288]

def isWs (c : Nat) : Bool := wsChars.contains c

/-- Rust `str::trim` on a code-point list. -/
def trimWs (l : List Nat) : List Nat :=
  ((l.dropWhile isWs).reverse.dropWhile isWs).reverse

/-- Strip one trailing `\r`, as `lines` does at each `\n` and `parse_filemesh`
does on the header line. -/
def stripTrailingCR (l : List Nat) : List Nat :=
  if l.getLast? = some 13 then l.dropLast else l

def linesGo : List Nat → List Nat → List (List Nat)
  | acc, [] => [acc.reverse]
  | acc, 10 :: rest =>
    stripTrailingCR acc.reverse :: (match rest with | [] => [] | _ :: _ => linesGo [] rest)
  | acc, c :: rest => linesGo (c :: acc) rest

/-- Rust `str::lines` on a code-point list: split at `\n`, strip a `\r`
preceding each `\n`, no empty final line for a trailing `\n`. -/
def linesOf : List Nat → List (List Nat)
  | [] => []
  | l => linesGo [] l

def isDigit (c : Nat) : Bool := 48 ≤ c && c ≤ 57

def digitsVal (l : List Nat) : Nat := l.foldl (fun a c => a * 10 + (c - 48)) 0

/-- Rust `usize::from_str`: optional `+`, then one or more decimal digits;
the checked accumulation fails exactly when the value does not fit in a
64-bit `usize`. -/
def parseUsize (cps : List Nat) : Option Nat :=
  let cps := match cps with | 43 :: rest => rest | _ => cps
  if cps = [] then none
  else if cps.all (fun c => isDigit c) then
    if digitsVal cps < 2 ^ 64 then some (digitsVal cps) else none
  else none

/-- Rust `f32::from_str` restricted to finite decimal/exponent literals,
with the value kept exact in `ℚ` (`inf`/`nan` forms and rounding to f32
precision are outside the model). -/
def parseF32Lit (cps : List Nat) : Option ℚ :=
  let sgn : ℚ × List Nat :=
    match cps with
    | 43 :: t => (1, t)
    | 45 :: t => (-1, t)
    | _ => (1, cps)
  let r1 := sgn.2
  let intPart := r1.takeWhile isDigit
  let r2 := r1.dropWhile isDigit
  let fracSplit : List Nat × List Nat :=
    match r2 with
    | 46 :: t => (t.takeWhile isDigit, t.dropWhile isDigit)
    | _ => ([], r2)
  let fracPart := fracSplit.1
  let r3 := fracSplit.2
  if intPart.length + fracPart.length = 0 then none
  else
    let mant : ℚ := sgn.1 * ((digitsVal (intPart ++ fracPart) : ℚ) / ((10 : ℚ) ^ fracPart.length))
    match r3 with
    | [] => some mant
    | 101 :: t =>
      let esgn : Int × List Nat :=
        match t with
        | 43 :: u => (1, u)
        | 45 :: u => (-1, u)
        | _ => (1, t)
      let eds := esgn.2.takeWhile isDigit
      let t2 := esgn.2.dropWhile isDigit
      if eds = [] ∨ t2 ≠ [] then none
      else some (mant * (10 : ℚ) ^ (esgn.1 * (digitsVal eds : Int)))
    | 69 :: t =>
      let esgn : Int × List Nat :=
        match t with
        | 43 :: u => (1, u)
        | 45 :: u => (-1, u)
        | _ => (1, t)
      let eds := esgn.2.takeWhile isDigit
      let t2 := esgn.2.dropWhile isDigit
      if eds = [] ∨ t2 ≠ [] then none
      else some (mant * (10 : ℚ) ^ (esgn.1 * (digitsVal eds : Int)))
    | _ => none

/-! ### The eight version header literals, as ASCII code lists. -/

/-- ASCII codes of the string "version 1.00". -/
def verStr1_00 : List Nat := [118, 101, 114, 115, 105, 111, 110, 32, 49, 46, 48, 48]

/-- ASCII codes of the string "version 1.01". -/
def verStr1_01 : List Nat := [118, 101, 114, 115, 105, 111, 110, 32, 49, 46, 48, 49]

/-- ASCII codes of the string "version 2.00". -/
def verStr2_00 : List Nat := [118, 101, 114, 115, 105, 111, 110, 32, 50, 46, 48, 48]

/-- ASCII codes of the string "version 3.00". -/
def verStr3_00 : List Nat := [118, 101, 114, 115, 105, 111, 110, 32, 51, 46, 48, 48]

/-- ASCII codes of the string "version 3.01". -/
def verStr3_01 : List Nat := [118, 101, 114, 115, 105, 111, 110, 32, 51, 46, 48, 49]

/-- ASCII codes of the string "version 4.00". -/
def verStr4_00 : List Nat := [118, 101, 114, 115, 105, 111, 110, 32, 52, 46, 48, 48]

/-- ASCII codes of the string "version 4.01". -/
def verStr4_01 : List Nat := [118, 101, 114, 115, 105, 111, 110, 32, 52, 46, 48, 49]

/-- ASCII codes of the string "version 5.00". -/
def verStr5_00 : List Nat := [118, 101, 114, 115, 105, 111, 110, 32, 53, 46, 48, 48]

/-- The eight supported version strings of `parse_filemesh`. -/
def versionStrings : List (List Nat) :=
  [verStr1_00, verStr1_01, verStr2_00, verStr3_00, verStr3_01, verStr4_00, verStr4_01, verStr5_00]

/-! ### ASCII v1 decoding (`parse_v1`, `parse_bracket_vectors`) -/

/-- Parse the comma-separated components inside one bracket pair: each
component is trimmed and parsed as a float, and there must be exactly three
(`expected three components per vector`).  Both failure modes are the same
`RobloxMeshParse` error kind in the source. -/
def parseComponents (inside : List Nat) : Option (ℚ × ℚ × ℚ) :=
  match (inside.splitOn 44).mapM (fun comp => parseF32Lit (trimWs comp)) with
  | none => none
  | some [a, b, c] => some (a, b, c)
  | some _ => none

/-- The scan loop of `parse_bracket_vectors` as a character-consuming state
machine: in state `none` we are between bracket groups and skip to the next
`[` (mirroring `rest.find('[')`); in state `some acc` we are inside a group
accumulating (reversed) content until the first `]` (mirroring
`after_start.find(']')`).  End of input inside a group is the
missing-closing-bracket `RobloxMeshParse` error. -/
def pbvGo : Option (List Nat) → List Nat → POut (List (ℚ × ℚ × ℚ))
  | none, [] => .ok []
  | none, 91 :: rest => pbvGo (some []) rest
  | none, _ :: rest => pbvGo none rest
  | some _, [] => .err .RobloxMeshParse
  | some acc, 93 :: rest =>
    match parseComponents acc.reverse with
    | none => .err .RobloxMeshParse
    | some v =>
      match pbvGo none rest with
      | .ok vs => .ok (v :: vs)
      | .err e => .err e
      | .panic => .panic
  | some acc, c :: rest => pbvGo (some (c :: acc)) rest

/-- `parse_bracket_vectors`: scan for `[`, take everything up to the first
following `]` as one vector, parse its three components, repeat.  A `[` with
no closing `]` or a bad component is a `RobloxMeshParse` error. -/
def parse_bracket_vectors (l : List Nat) : POut (List (ℚ × ℚ × ℚ)) :=
  pbvGo none l

/-- One vertex of the v1 build loop: position (scaled by 0.5 for v1.00),
normal, and uv with the V component flipped (`1.0 - uv_vec[1]`, third
component of the uv vector dropped). -/
def v1BuildVertex (scaleHalf : Bool) (pv nv uvv : ℚ × ℚ × ℚ) : IntermediateVertex :=
  let pos := if scaleHalf then (pv.1 * 0.5, pv.2.1 * 0.5, pv.2.2 * 0.5) else pv
  { pos := pos, normal := nv, uv := (uvv.1, 1 - uvv.2.1) }

/-- The v1 build loop of `parse_v1`: iteration `n` reads vectors
`n*9 .. n*9+8` (position, normal, texcoord for each of 3 corners), pushes
three fresh vertices, and records their just-assigned indices as the face
(`vertices.len() as u32`, hence truncated modulo `2 ^ 32`). -/
def buildV1 (vectors : List (ℚ × ℚ × ℚ)) (scaleHalf : Bool) :
    Nat → List IntermediateVertex × List (Nat × Nat × Nat)
  | 0 => ([], [])
  | n + 1 =>
    let prev := buildV1 vectors scaleHalf n
    let base := n * 9
    let corner := fun (c : Nat) =>
      v1BuildVertex scaleHalf (vectors.getD (base + c * 3) (0, 0, 0))
        (vectors.getD (base + c * 3 + 1) (0, 0, 0)) (vectors.getD (base + c * 3 + 2) (0, 0, 0))
    (prev.1 ++ [corner 0, corner 1, corner 2],
     prev.2 ++ [(prev.1.length % 2 ^ 32, (prev.1.length + 1) % 2 ^ 32,
       (prev.1.length + 2) % 2 ^ 32)])

/-- `parse_v1` from `src/filemesh.rs`: UTF-8 body, first line is the face
count, second line the bracketed vectors; the vector count must equal
`num_faces * 9` computed in `usize` (release profile: the product wraps
modulo `2 ^ 64`).  When the count check passes, the source next allocates
`Vec::with_capacity(num_faces * 3)` for the vertices (one `IntermediateVertex`
is 32 bytes, and the `* 3` also wraps) and `Vec::with_capacity(num_faces)`
for the faces (one `[u32; 3]` record is 12 bytes); either allocation panics
with a capacity overflow when its byte size exceeds `isize::MAX`
(`2 ^ 63 - 1`). -/
def parse_v1 (body : List Nat) (scaleHalf : Bool) : POut IntermediateMesh :=
  match utf8Decode body with
  | none => .err .RobloxMeshParse
  | some cps =>
    match linesOf cps with
    | [] => .err .RobloxMeshParse
    | facesLine :: restLines =>
      match parseUsize (trimWs facesLine) with
      | none => .err .RobloxMeshParse
      | some numFaces =>
        match restLines with
        | [] => .err .RobloxMeshParse
        | dataLine :: _ =>
          match parse_bracket_vectors (trimWs dataLine) with
          | .err e => .err e
          | .panic => .panic
          | .ok vectors =>
            if vectors.length ≠ numFaces * 9 % 2 ^ 64 then .err .RobloxMeshParse
            else if (numFaces * 3 % 2 ^ 64) * 32 > 2 ^ 63 - 1 then POut.panic
            else if numFaces * 12 > 2 ^ 63 - 1 then POut.panic
            else
              .ok ⟨(buildV1 vectors scaleHalf numFaces).1, (buildV1 vectors scaleHalf numFaces).2⟩

/-! ### Binary record readers (`read_vertices`, `read_faces`, LOD offsets) -/

/-- `read_vertices`: per record, 8 LE floats (position, normal, uv), 4 `i8`
tangent bytes read and discarded, then (iff `hasRgba`) 4 color bytes read and
discarded.  V is flipped on read: `uv = [tu, 1.0 - tv]`. -/
def read_vertices : List Nat → Nat → Bool → POut (List IntermediateVertex × List Nat)
  | data, 0, _ => .ok ([], data)
  | data, n + 1, hasRgba => do
    let (px, r) ← readF32 data
    let (py, r) ← readF32 r
    let (pz, r) ← readF32 r
    let (nx, r) ← readF32 r
    let (ny, r) ← readF32 r
    let (nz, r) ← readF32 r
    let (tu, r) ← readF32 r
    let (tv, r) ← readF32 r
    let (_tx, r) ← readI8 r
    let (_ty, r) ← readI8 r
    let (_tz, r) ← readI8 r
    let (_ts, r) ← readI8 r
    let r ← if hasRgba then readExact4 r else pure r
    let (rest, rfin) ← read_vertices r n hasRgba
    .ok ({ pos := (px, py, pz), normal := (nx, ny, nz), uv := (tu, 1 - tv) } :: rest, rfin)

/-- `read_faces`: per record three LE `u32` indices. -/
def read_faces : List Nat → Nat → POut (List (Nat × Nat × Nat) × List Nat)
  | data, 0 => .ok ([], data)
  | data, n + 1 => do
    let (a, r) ← readU32 data
    let (b, r) ← readU32 r
    let (c, r) ← readU32 r
    let (rest, rfin) ← read_faces r n
    .ok ((a, b, c) :: rest, rfin)

/-- The LOD-offset read loops of `parse_v3`/`parse_v4`/`parse_v5`. -/
def readLodOffsets : List Nat → Nat → POut (List Nat × List Nat)
  | data, 0 => .ok ([], data)
  | data, n + 1 => do
    let (x, r) ← readU32 data
    let (rest, rfin) ← readLodOffsets r n
    .ok (x :: rest, rfin)

/-! ### Binary version handlers -/

/-- `parse_v2`: header size must be 12 (`size_of::<FileMeshHeaderV2>()`), face
stride must be 12 (`size_of::<FileMeshFace>()`); the vertex stride is only
compared against 40 (`size_of::<FileMeshVertex>()`) to decide whether records
carry the RGBA block. -/
def parse_v2 (body : List Nat) : POut IntermediateMesh := do
  let (headerSize, r) ← readU16 body
  if headerSize ≠ 12 then .err .RobloxMeshParse else do
  let (sizeofVertex, r) ← readU8 r
  let (sizeofFace, r) ← readU8 r
  if sizeofFace ≠ 12 then .err .RobloxMeshParse else do
  let (numVerts, r) ← readU32 r
  let (numFaces, r) ← readU32 r
  let (vertices, r) ← read_vertices r numVerts (sizeofVertex == 40)
  let (faces, _) ← read_faces r numFaces
  .ok ⟨vertices, faces⟩

/-- The values `parse_v3` has in hand after all reads, before LOD
truncation. -/
structure V3Core where
  numFaces : Nat
  vertices : List IntermediateVertex
  faces : List (Nat × Nat × Nat)
  lodOffsets : List Nat
deriving DecidableEq, Repr

/-- Everything `parse_v3` does before the LOD truncation: header (size must be
16, face stride 12, vertex stride exactly 40 or the parse fails), vertices,
faces and the LOD-offset list.  Returns the declared face count alongside. -/
def parseV3Core (body : List Nat) : POut (V3Core × List Nat) := do
  let (headerSize, r) ← readU16 body
  if headerSize ≠ 16 then .err .RobloxMeshParse else do
  let (sizeofVertex, r) ← readU8 r
  let (sizeofFace, r) ← readU8 r
  if sizeofFace ≠ 12 then .err .RobloxMeshParse else do
  let (_sizeofLodOffset, r) ← readU16 r
  let (numLodOffsets, r) ← readU16 r
  let (numVerts, r) ← readU32 r
  let (numFaces, r) ← readU32 r
  if sizeofVertex ≠ 40 then .err .RobloxMeshParse else do
  let (vertices, r) ← read_vertices r numVerts true
  let (faces, r) ← read_faces r numFaces
  let (lodOffsets, r) ← readLodOffsets r numLodOffsets
  .ok (⟨numFaces, vertices, faces, lodOffsets⟩, r)

/-- `parse_v3`: after the core read, keep only the LOD-0 faces:
`base = min(lod_offsets.get(1).unwrap_or(num_faces), num_faces)`,
`faces.truncate(min(base, faces.len()))`. -/
def parse_v3 (body : List Nat) : POut IntermediateMesh := do
  let (c, _) ← parseV3Core body
  let baseFaceCount := (c.lodOffsets.get? 1).getD c.numFaces
  let baseFaceCount := min baseFaceCount c.numFaces
  .ok ⟨c.vertices, c.faces.take (min baseFaceCount c.faces.length)⟩

/-- The v4 header record (`FileMeshHeaderV4`, 24 bytes). -/
structure V4Header where
  lodType : Nat
  numVerts : Nat
  numFaces : Nat
  numLodOffsets : Nat
  numBones : Nat
  sizeofBoneNames : Nat
  numSubsets : Nat
  numHighQualityLODs : Nat
  unused : Nat
deriving DecidableEq, Repr

/-- The header-reading prefix of `parse_v4`: the declared header size must be
24 (`size_of::<FileMeshHeaderV4>()`) and all header fields must be present. -/
def parseV4Header (body : List Nat) : POut (V4Header × List Nat) := do
  let (headerSize, r) ← readU16 body
  if headerSize ≠ 24 then .err .RobloxMeshParse else do
  let (lodType, r) ← readU16 r
  let (numVerts, r) ← readU32 r
  let (numFaces, r) ← readU32 r
  let (numLodOffsets, r) ← readU16 r
  let (numBones, r) ← readU16 r
  let (sizeofBoneNames, r) ← readU32 r
  let (numSubsets, r) ← readU16 r
  let (numHighQualityLODs, r) ← readU8 r
  let (unused, r) ← readU8 r
  .ok (⟨lodType, numVerts, numFaces, numLodOffsets, numBones, sizeofBoneNames, numSubsets,
        numHighQualityLODs, unused⟩, r)

/-- The post-stride tail of `parse_v4`: vertices, faces, LOD offsets, LOD-0
truncation (same truncation as v3). -/
def parseV4Tail (r : List Nat) (h : V4Header) (hasRgba : Bool) : POut IntermediateMesh := do
  let (vertices, r) ← read_vertices r h.numVerts hasRgba
  let (faces, r) ← read_faces r h.numFaces
  let (lodOffsets, _) ← readLodOffsets r h.numLodOffsets
  let baseFaceCount := (lodOffsets.get? 1).getD h.numFaces
  let baseFaceCount := min baseFaceCount h.numFaces
  .ok ⟨vertices, faces.take (min baseFaceCount faces.length)⟩

/-- `parse_v4`: non-zero bone/bone-name/subset fields are rejected as
unsupported; the vertex stride is inferred as
`(remaining - faces_bytes - lod_bytes) / num_verts` and must be 40 or 36.
Rust's `/` panics when `num_verts = 0`, which the model makes explicit. -/
def parse_v4 (body : List Nat) : POut IntermediateMesh := do
  let (h, r) ← parseV4Header body
  if h.numBones ≠ 0 ∨ h.sizeofBoneNames ≠ 0 ∨ h.numSubsets ≠ 0 then .err .Unsupported else do
  let facesBytes := h.numFaces * 12
  let lodBytes := h.numLodOffsets * 4
  if r.length < facesBytes + lodBytes then .err .RobloxMeshParse else do
  let vertexBlockBytes := r.length - (facesBytes + lodBytes)
  if h.numVerts = 0 then POut.panic else do
  let sizeofVertex := vertexBlockBytes / h.numVerts
  if sizeofVertex = 40 then parseV4Tail r h true
  else if sizeofVertex = 36 then parseV4Tail r h false
  else .err .RobloxMeshParse

/-- `parse_v5`: header size must be 32 (`size_of::<FileMeshHeaderV5>()`);
non-zero bone/subset fields and non-zero FACS fields are rejected; vertex
records always carry the RGBA block; LOD truncation as in v3. -/
def parse_v5 (body : List Nat) : POut IntermediateMesh := do
  let (headerSize, r) ← readU16 body
  if headerSize ≠ 32 then .err .RobloxMeshParse else do
  let (_lodType, r) ← readU16 r
  let (numVerts, r) ← readU32 r
  let (numFaces, r) ← readU32 r
  let (numLodOffsets, r) ← readU16 r
  let (numBones, r) ← readU16 r
  let (sizeofBoneNames, r) ← readU32 r
  let (numSubsets, r) ← readU16 r
  let (_numHighQualityLODs, r) ← readU8 r
  let (_unused, r) ← readU8 r
  let (facsFormat, r) ← readU32 r
  let (facsSize, r) ← readU32 r
  if numBones ≠ 0 ∨ sizeofBoneNames ≠ 0 ∨ numSubsets ≠ 0 then .err .Unsupported else do
  if facsFormat ≠ 0 ∨ facsSize ≠ 0 then .err .Unsupported else do
  let (vertices, r) ← read_vertices r numVerts true
  let (faces, r) ← read_faces r numFaces
  let (lodOffsets, _) ← readLodOffsets r numLodOffsets
  let baseFaceCount := (lodOffsets.get? 1).getD numFaces
  let baseFaceCount := min baseFaceCount numFaces
  .ok ⟨vertices, faces.take (min baseFaceCount faces.length)⟩

/-- `parse_filemesh`: find the first `\n`; the bytes before it (one trailing
`\r` stripped) must be UTF-8 and, trimmed, one of the eight version literals;
the rest of the buffer is the body handed to the per-version parser. -/
def parse_filemesh (data : List Nat) : POut IntermediateMesh :=
  match data.findIdx? (fun b => b = 10) with
  | none => .err .RobloxMeshParse
  | some nl =>
    match utf8Decode (stripTrailingCR (data.take nl)) with
    | none => .err .RobloxMeshParse
    | some cps =>
      let versionStr := trimWs cps
      let body := data.drop (nl + 1)
      if versionStr = verStr1_00 then parse_v1 body true
      else if versionStr = verStr1_01 then parse_v1 body false
      else if versionStr = verStr2_00 then parse_v2 body
      else if versionStr = verStr3_00 ∨ versionStr = verStr3_01 then parse_v3 body
      else if versionStr = verStr4_00 ∨ versionStr = verStr4_01 then parse_v4 body
      else if versionStr = verStr5_00 then parse_v5 body
      else .err .Unsupported

/-! ### Encoders (`src/ser.rs`).  Writing into a `Vec<u8>` cannot fail in the
source, so the only failure mode is the vertex-indexing panic in `write_v1`;
the writers return `Option (List Nat)` with `none` modelling that panic. -/

/-- Decimal digits of a natural number, as ASCII codes. -/
def natDecimal (n : Nat) : List Nat := (toString n).data.map Char.toNat

/-- Round a non-negative rational to the nearest integer, ties to even
(the rounding `{:.6}` formatting applies). -/
def roundHalfEven (x : ℚ) : Nat :=
  let fl := (Int.floor x).toNat
  let fr := x - Int.floor x
  if fr > 1 / 2 then fl + 1 else if fr < 1 / 2 then fl else if fl % 2 = 0 then fl else fl + 1

/-- Rust `{:.6}` fixed-point formatting of a float value, as ASCII codes. -/
def formatFixed6 (q : ℚ) : List Nat :=
  let n := roundHalfEven (|q| * 1000000)
  let frac := natDecimal (n % 1000000)
  (if q < 0 then [45] else []) ++ natDecimal (n / 1000000) ++ [46] ++
    List.replicate (6 - frac.length) 48 ++ frac

/-- One `[a,b,c]` group of the v1 text format. -/
def formatTriple (a b c : ℚ) : List Nat :=
  [91] ++ formatFixed6 a ++ [44] ++ formatFixed6 b ++ [44] ++ formatFixed6 c ++ [93]

/-- The `[pos][normal][uv]` text of one face corner (9 floats). -/
def formatCorner (c : List ℚ) : List Nat :=
  formatTriple (c.getD 0 0) (c.getD 1 0) (c.getD 2 0) ++
    formatTriple (c.getD 3 0) (c.getD 4 0) (c.getD 5 0) ++
    formatTriple (c.getD 6 0) (c.getD 7 0) (c.getD 8 0)

/-- The nine float values `write_v1` emits for one vertex: scaled position,
normal, then uv with a constant `0.0` third component (V not flipped). -/
def v1CornerFloats (scaler : ℚ) (v : IntermediateVertex) : List ℚ :=
  [v.pos.1 * scaler, v.pos.2.1 * scaler, v.pos.2.2 * scaler,
   v.normal.1, v.normal.2.1, v.normal.2.2, v.uv.1, v.uv.2, 0]

/-- The corner-float lists for one face: `write_v1` looks up
`mesh.vertices[vertex_index]` for each of the face's three indices (`none`
models the Rust index-out-of-bounds panic). -/
def v1FaceCorners (mesh : IntermediateMesh) (scaler : ℚ) (f : Nat × Nat × Nat) :
    Option (List (List ℚ)) :=
  match mesh.vertices.get? f.1, mesh.vertices.get? f.2.1, mesh.vertices.get? f.2.2 with
  | some v1, some v2, some v3 =>
    some [v1CornerFloats scaler v1, v1CornerFloats scaler v2, v1CornerFloats scaler v3]
  | _, _, _ => none

/-- The face loop of `write_v1`, emitting the corner-float lists in order. -/
def v1CornersGo (mesh : IntermediateMesh) (scaler : ℚ) :
    List (Nat × Nat × Nat) → Option (List (List ℚ))
  | [] => some []
  | f :: fs =>
    match v1FaceCorners mesh scaler f, v1CornersGo mesh scaler fs with
    | some cs, some rest => some (cs ++ rest)
    | _, _ => none

/-- All corner-float lists `write_v1` emits, in face order. -/
def v1Corners (mesh : IntermediateMesh) (scaler : ℚ) : Option (List (List ℚ)) :=
  v1CornersGo mesh scaler mesh.faces

/-- `V1Version` from `src/ser.rs`. -/
inductive V1Version where
  | V1_00
  | V1_01
deriving DecidableEq, Repr

/-- `write_v1`: header line, face count line, then per face and corner the
bracketed 9-float groups; positions are scaled by 2.0 for v1.00 and 1.0 for
v1.01. -/
def write_v1 (mesh : IntermediateMesh) (version : V1Version) : Option (List Nat) :=
  let scaler : ℚ := match version with | .V1_00 => 2 | .V1_01 => 1
  let header : List Nat :=
    match version with | .V1_00 => verStr1_00 ++ [10] | .V1_01 => verStr1_01 ++ [10]
  (v1Corners mesh scaler).map
    (fun cs => header ++ natDecimal mesh.faces.length ++ [10] ++ cs.flatMap formatCorner)

/-- The 40-byte `FileMeshVertex` record the binary writers emit: 8 floats,
then the default tangent bytes `(0, 0, -127, 127)` (`-127` as the byte 129)
and the default opaque-white color `(255, 255, 255, 255)`.  V is written
unflipped (direct passthrough of `vertex.uv[1]`). -/
def encodeVertex (v : IntermediateVertex) : List Nat :=
  f32ToBytes v.pos.1 ++ f32ToBytes v.pos.2.1 ++ f32ToBytes v.pos.2.2 ++
  f32ToBytes v.normal.1 ++ f32ToBytes v.normal.2.1 ++ f32ToBytes v.normal.2.2 ++
  f32ToBytes v.uv.1 ++ f32ToBytes v.uv.2 ++ [0, 0, 129, 127] ++ [255, 255, 255, 255]

/-- The 12-byte `FileMeshFace` record: three LE `u32` indices. -/
def encodeFace (f : Nat × Nat × Nat) : List Nat :=
  writeU32 f.1 ++ writeU32 f.2.1 ++ writeU32 f.2.2

/-- The v2 body `write_v2` emits after the header line: `FileMeshHeaderV2`
(size 12, vertex stride 40, face stride 12, counts as `u32`), the vertex
records, the face records. -/
def v2Body (mesh : IntermediateMesh) : List Nat :=
  writeU16 12 ++ [40, 12] ++ writeU32 mesh.vertices.length ++ writeU32 mesh.faces.length ++
    mesh.vertices.flatMap encodeVertex ++ mesh.faces.flatMap encodeFace

/-- `write_v2`: `version 2.00` header line then the v2 body. -/
def write_v2 (mesh : IntermediateMesh) : Option (List Nat) :=
  some (verStr2_00 ++ [10] ++ v2Body mesh)

/-- `write_v3`: `FileMeshHeaderV3` with `sizeof_LodOffset = 4` and
`numLodOffsets = 1`, the records, then the single trailing LOD offset 0. -/
def write_v3 (mesh : IntermediateMesh) : Option (List Nat) :=
  some (verStr3_00 ++ [10] ++ writeU16 16 ++ [40, 12] ++ writeU16 4 ++ writeU16 1 ++
    writeU32 mesh.vertices.length ++ writeU32 mesh.faces.length ++
    mesh.vertices.flatMap encodeVertex ++ mesh.faces.flatMap encodeFace ++ writeU32 0)

/-- `write_v4`: `FileMeshHeaderV4` with zero bones/subsets, one LOD offset,
`numHighQualityLODs = 1`, the records, then the trailing LOD offset 0. -/
def write_v4 (mesh : IntermediateMesh) : Option (List Nat) :=
  some (verStr4_00 ++ [10] ++ writeU16 24 ++ writeU16 0 ++
    writeU32 mesh.vertices.length ++ writeU32 mesh.faces.length ++
    writeU16 1 ++ writeU16 0 ++ writeU32 0 ++ writeU16 0 ++ [1, 0] ++
    mesh.vertices.flatMap encodeVertex ++ mesh.faces.flatMap encodeFace ++ writeU32 0)

/-- `write_v5`: `FileMeshHeaderV5` with zero bones/subsets/FACS fields, one
LOD offset, the records, then the trailing LOD offset 0. -/
def write_v5 (mesh : IntermediateMesh) : Option (List Nat) :=
  some (verStr5_00 ++ [10] ++ writeU16 32 ++ writeU16 0 ++
    writeU32 mesh.vertices.length ++ writeU32 mesh.faces.length ++
    writeU16 1 ++ writeU16 0 ++ writeU32 0 ++ writeU16 0 ++ [1, 0] ++
    writeU32 0 ++ writeU32 0 ++
    mesh.vertices.flatMap encodeVertex ++ mesh.faces.flatMap encodeFace ++ writeU32 0)

/-! ### The mesh invariant (spec §3) -/

/-- Every face index is strictly below the vertex count. -/
def faceIndicesInBounds (m : IntermediateMesh) : Prop :=
  ∀ f ∈ m.faces, f.1 < m.vertices.length ∧ f.2.1 < m.vertices.length ∧
    f.2.2 < m.vertices.length

instance (m : IntermediateMesh) : Decidable (faceIndicesInBounds m) := by
  unfold faceIndicesInBounds
  infer_instance

/-! ### Claim C9: the decoder does not enforce the face-index invariant -/

/-- A well-formed v2.00 buffer (header size 12, colorless stride 36, one
all-zero vertex, one face) whose single face record carries the index 99. -/
def c9Buf : List Nat :=
  verStr2_00 ++ [10] ++ writeU16 12 ++ [36, 12] ++ writeU32 1 ++ writeU32 1 ++
    List.replicate 36 0 ++ writeU32 99 ++ writeU32 0 ++ writeU32 0

/-- The mesh `parse_filemesh` returns for `c9Buf`: one vertex, one face
referencing vertex 99. -/
def c9Mesh : IntermediateMesh :=
  ⟨[⟨(0, 0, 0), (0, 0, 0), (0, 1)⟩], [(99, 0, 0)]⟩

/-! ### Claim C10: `parse_v4` divides by zero at `numVerts = 0` -/

/-- A v4.00 buffer whose header parses (size 24), with zero bones, zero
bone-name bytes, zero subsets, zero LOD offsets, zero faces, a declared
vertex count of 0, and one extra body byte. -/
def c10Buf : List Nat :=
  verStr4_00 ++ [10] ++ writeU16 24 ++ writeU16 0 ++ writeU32 0 ++ writeU32 0 ++
    writeU16 0 ++ writeU16 0 ++ writeU32 0 ++ writeU16 0 ++ [0, 0] ++ [0]

/-! ### Claim C4: v2 vertex-stride handling -/

/-- A v2.00 buffer with declared vertex stride 0 (neither 40 nor 36), zero
vertices and zero faces. -/
def c4Buf : List Nat := verStr2_00 ++ [10] ++ writeU16 12 ++ [0, 12] ++ writeU32 0 ++ writeU32 0

/-- A v2.00 body with declared vertex stride `s`, one vertex record of 36
zero bytes, and zero faces. -/
def v2StrideProbe (s : Nat) : List Nat :=
  [12, 0, s, 12, 1, 0, 0, 0, 0, 0, 0, 0] ++ List.replicate 36 0

/-! ### Claim C3: v3 LOD truncation -/

/-- A v3.00 buffer with 0 vertices, 5 declared and present faces
`(i, 0, 0)`, and the three LOD offsets `[0, 2, 5]`. -/
def c3Buf : List Nat :=
  verStr3_00 ++ [10] ++ [16, 0, 40, 12, 4, 0, 3, 0] ++ writeU32 0 ++ writeU32 5 ++
    encodeFace (0, 0, 0) ++ encodeFace (1, 0, 0) ++ encodeFace (2, 0, 0) ++
    encodeFace (3, 0, 0) ++ encodeFace (4, 0, 0) ++
    writeU32 0 ++ writeU32 2 ++ writeU32 5

/-! ### Claim C5: v1.00 versus v1.01 position scaling on write -/

/-- Scale the first three entries (the position components) of a corner-float
list. -/
def scaleHead3 (s : ℚ) (c : List ℚ) : List ℚ :=
  (c.take 3).map (fun x => x * s) ++ c.drop 3

/-- The position components (first three floats of each corner group) of a
`write_v1` emission, in order. -/
def v1PosComponents (cs : List (List ℚ)) : List ℚ :=
  cs.flatMap (fun c => c.take 3)

/-- Counterexample to C5 as stated: on the one-vertex mesh with position
`(1, 0, 0)`, `write_v1` with v1.00 emits position component 2 while v1.01
emits 1 — a factor of 2, not 4. -/
def c5Mesh : IntermediateMesh := ⟨[⟨(1, 0, 0), (0, 0, 0), (0, 0)⟩], [(0, 0, 0)]⟩

/-- The corner floats `write_v1 c5Mesh V1_01` emits (scaler 1). -/
def c5Corners1 : List (List ℚ) :=
  [[1, 0, 0, 0, 0, 0, 0, 0, 0], [1, 0, 0, 0, 0, 0, 0, 0, 0], [1, 0, 0, 0, 0, 0, 0, 0, 0]]

/-- The body `"1\n"` followed by nine `[0,0,0]` bracket groups. -/
def c7Body : List Nat :=
  [49, 10] ++ (List.replicate 9 [91, 48, 44, 48, 44, 48, 93]).flatten

/-- The body `"10248191152060862009\n[0,0,0]"`.  Its face count `F` satisfies
`F * 9 = 5 * 2 ^ 64 + 1`, so the `usize` product wraps to exactly 1 — the
single bracket group passes the count check and the program then panics at
`Vec::with_capacity(num_faces * 3)` (capacity overflow). -/
def c7WrapBody : List Nat :=
  [49, 48, 50, 52, 56, 49, 57, 49, 49, 53, 50, 48, 54, 48, 56, 54, 50, 48, 48, 57, 10,
   91, 48, 44, 48, 44, 48, 93]

/-! ### Claim C1: the v2.00 encode/decode round trip flips V -/

/-- What one v2 round trip does to a vertex: position, normal and the U
component are preserved; V becomes `1 - V` (the decoder flips, the encoder
does not). -/
def flipV (v : IntermediateVertex) : IntermediateVertex :=
  ⟨v.pos, v.normal, (v.uv.1, 1 - v.uv.2)⟩

/-- A one-vertex mesh with `V = 1/4`, exhibiting the non-identity of the v2
round trip on V. -/
def c1Mesh : IntermediateMesh := ⟨[⟨(0, 0, 0), (0, 0, 0), (0, 1 / 4)⟩], []⟩

/-! ### Proof development.  Everything below is theorems; the Batteries
rational operations are unsealed so concrete decoder runs reduce under
`decide`. -/
/- The Batteries rational operations are `@[irreducible]`; expose them so
concrete decoder runs can be settled by `decide`. -/
unseal Rat.add Rat.sub Rat.mul Rat.inv Rat.ofScientific

theorem decInt_encInt (n : Int) : decInt (encInt n) = n := by
  unfold encInt decInt
  rcases le_or_lt 0 n with h | h
  · simp only [if_pos h]
    have h2 : 2 * n.toNat % 2 = 0 := by omega
    simp only [if_pos h2]
    omega
  · have hneg : ¬ 0 ≤ n := not_le.mpr h
    simp only [if_neg hneg]
    have h1 : 1 ≤ (-n).toNat := by omega
    have h2 : (2 * (-n).toNat - 1) % 2 = 1 := by omega
    simp only [h2]
    omega

theorem decQ_encQ (q : ℚ) : decQ (encQ q) = q := by
  unfold decQ encQ
  rw [Nat.unpair_pair]
  simp only [decInt_encInt]
  exact_mod_cast Rat.num_div_den q

theorem readF32_f32ToBytes (q : ℚ) (r : List Nat) :
    readF32 (f32ToBytes q ++ r) = .ok (q, r) := by
  simp [readF32, f32ToBytes, decQ_encQ]

theorem readU32_writeU32 (n : Nat) (r : List Nat) :
    readU32 (writeU32 n ++ r) = .ok (n % 2 ^ 32, r) := by
  simp only [writeU32, List.cons_append, List.nil_append, readU32, POut.ok.injEq, Prod.mk.injEq,
    and_true]
  omega

theorem readU16_writeU16 (n : Nat) (r : List Nat) :
    readU16 (writeU16 n ++ r) = .ok (n % 2 ^ 16, r) := by
  simp only [writeU16, List.cons_append, List.nil_append, readU16, POut.ok.injEq, Prod.mk.injEq,
    and_true]
  omega

/-- C9: there is an input buffer for which `parse_filemesh` returns `Ok` with
a mesh whose face indices are out of bounds: the decoder performs no
face-index validation. -/
theorem decoder_allows_out_of_bounds_faces :
    parse_filemesh c9Buf = POut.ok c9Mesh ∧ ¬ faceIndicesInBounds c9Mesh := by
  constructor
  · decide
  · decide

/-- C10: decoding `c10Buf` reaches `vertex_block_bytes / num_verts` with
`num_verts = 0` and panics (Rust integer division by zero) instead of
returning a malformed-body error: v4 decoding is not total at `numVerts = 0`. -/
theorem parse_v4_divides_by_zero_on_zero_verts :
    parse_filemesh c10Buf = POut.panic := by decide

/-! ### Claim C2: version dispatch -/

/-- C2: a buffer with no newline fails with the malformed-header error; a
buffer whose first line (trailing `\r` stripped) is valid UTF-8 but, trimmed,
is none of the eight version literals fails with the unsupported-version
error, regardless of the body. -/
theorem parse_filemesh_header_dispatch :
    (∀ data : List Nat, data.findIdx? (fun b => b = 10) = none →
      parse_filemesh data = POut.err ConversionError.RobloxMeshParse) ∧
    (∀ (data : List Nat) (nl : Nat) (cps : List Nat),
      data.findIdx? (fun b => b = 10) = some nl →
      utf8Decode (stripTrailingCR (data.take nl)) = some cps →
      trimWs cps ∉ versionStrings →
      parse_filemesh data = POut.err ConversionError.Unsupported) := by
  constructor
  · intro data h
    unfold parse_filemesh
    rw [h]
  · intro data nl cps h1 h2 h3
    have h3' : trimWs cps ≠ verStr1_00 ∧ trimWs cps ≠ verStr1_01 ∧ trimWs cps ≠ verStr2_00 ∧
        trimWs cps ≠ verStr3_00 ∧ trimWs cps ≠ verStr3_01 ∧ trimWs cps ≠ verStr4_00 ∧
        trimWs cps ≠ verStr4_01 ∧ trimWs cps ≠ verStr5_00 := by
      simpa [versionStrings] using h3
    obtain ⟨n1, n2, n3, n4, n5, n6, n7, n8⟩ := h3'
    simp [parse_filemesh, h1, h2, n1, n2, n3, n4, n5, n6, n7, n8]

/-- Witness for C2 at concrete inputs: `"version 2.00"` with no newline at
all is malformed-header; a `"v\n"` buffer is unsupported-version. -/
theorem parse_filemesh_header_dispatch_witness :
    parse_filemesh verStr2_00 = POut.err ConversionError.RobloxMeshParse ∧
    parse_filemesh [118, 10] = POut.err ConversionError.Unsupported :=
  ⟨parse_filemesh_header_dispatch.1 verStr2_00 (by decide),
   parse_filemesh_header_dispatch.2 [118, 10] 1 [118] (by decide) (by decide) (by decide)⟩

/-! ### Claim C6: v4 skinning rejection -/

/-- C6: whenever the v4 header parses and any of the bone count, bone-name
buffer size, or subset count is non-zero, `parse_v4` fails with the
unsupported-feature error, independent of every other field and of the rest
of the buffer. -/
theorem parse_v4_rejects_skinning :
    ∀ (body : List Nat) (h : V4Header) (r : List Nat),
      parseV4Header body = POut.ok (h, r) →
      h.numBones ≠ 0 ∨ h.sizeofBoneNames ≠ 0 ∨ h.numSubsets ≠ 0 →
      parse_v4 body = POut.err ConversionError.Unsupported := by
  intro body h r hh hcond
  unfold parse_v4
  rw [hh]
  simp [hcond]

/-- Witness for C6: a v4 header with `numBones = 1` and every other field 0
(and an empty remainder) is rejected as unsupported. -/
theorem parse_v4_rejects_skinning_witness :
    parse_v4 (writeU16 24 ++ writeU16 0 ++ writeU32 0 ++ writeU32 0 ++ writeU16 0 ++
      writeU16 1 ++ writeU32 0 ++ writeU16 0 ++ [0, 0]) = POut.err ConversionError.Unsupported :=
  parse_v4_rejects_skinning _ ⟨0, 0, 0, 0, 1, 0, 0, 0, 0⟩ [] (by decide) (by decide)

/-- Counterexample to C4 as stated: the stride-0 v2 buffer decodes
successfully (to the empty mesh) instead of failing with a malformed-body
error — `parse_v2` never validates the vertex stride. -/
theorem parse_v2_accepts_unknown_stride :
    parse_filemesh c4Buf = POut.ok ⟨[], []⟩ := by decide

/-- C4 amended: the declared v2 vertex stride is compared only against 40 to
pick the record layout and is never rejected: every stride other than 40
(not just 36) reads compact colorless 36-byte records, and stride 40 reads
colored 40-byte records. -/
theorem parse_v2_stride_only_selects_layout :
    (∀ s : Nat, s ≠ 40 →
      parse_v2 (v2StrideProbe s) =
        POut.ok ⟨[⟨(0, 0, 0), (0, 0, 0), (0, 1)⟩], []⟩) ∧
    parse_v2 ([12, 0, 40, 12, 1, 0, 0, 0, 0, 0, 0, 0] ++ List.replicate 40 0) =
      POut.ok ⟨[⟨(0, 0, 0), (0, 0, 0), (0, 1)⟩], []⟩ := by
  constructor
  · intro s hs
    have hb : (s == 40) = false := by simp [hs]
    simp [v2StrideProbe, parse_v2, readU16, readU8, readU32, hb]
    decide
  · decide

/-- Witness for the amended C4 at the (neither-40-nor-36) stride 17. -/
theorem parse_v2_stride_only_selects_layout_witness :
    parse_v2 (v2StrideProbe 17) = POut.ok ⟨[⟨(0, 0, 0), (0, 0, 0), (0, 1)⟩], []⟩ :=
  parse_v2_stride_only_selects_layout.1 17 (by decide)

/-! ### Outcome-dissection helpers -/

theorem bind_ok_iff {α β : Type} (x : POut α) (f : α → POut β) (b : β) :
    (x >>= f) = POut.ok b ↔ ∃ a, x = POut.ok a ∧ f a = POut.ok b := by
  cases x <;> simp [POut.ok_bind, POut.err_bind, POut.panic_bind]

theorem ite_err_ok {α : Type} {c : Prop} [Decidable c] {e : ConversionError} {x : POut α}
    {b : α} : (if c then POut.err e else x) = POut.ok b ↔ ¬c ∧ x = POut.ok b := by
  split <;> simp_all

/-- `read_faces` returns exactly as many faces as requested, or fails. -/
theorem read_faces_length :
    ∀ (n : Nat) (d : List Nat) (fs : List (Nat × Nat × Nat)) (r : List Nat),
      read_faces d n = POut.ok (fs, r) → fs.length = n := by
  intro n
  induction n with
  | zero =>
    intro d fs r h
    simp only [read_faces, POut.ok.injEq, Prod.mk.injEq] at h
    simp [← h.1]
  | succ n ih =>
    intro d fs r h
    simp only [read_faces, bind_ok_iff] at h
    obtain ⟨⟨a, r1⟩, hA, h⟩ := h
    simp only [bind_ok_iff] at h
    obtain ⟨⟨b, r2⟩, hB, h⟩ := h
    simp only [bind_ok_iff] at h
    obtain ⟨⟨c, r3⟩, hC, h⟩ := h
    simp only [bind_ok_iff] at h
    obtain ⟨⟨rest, rfin⟩, hR, h⟩ := h
    simp only [POut.ok.injEq, Prod.mk.injEq] at h
    obtain ⟨hfs, -⟩ := h
    subst hfs
    simp [ih _ _ _ hR]

/-- Dissecting a successful `parseV3Core` run: the face list read has exactly
the declared length. -/
theorem parseV3Core_faces_length
    (body : List Nat) (nf : Nat) (vs : List IntermediateVertex)
    (fs : List (Nat × Nat × Nat)) (lods rest : List Nat)
    (h : parseV3Core body = POut.ok (⟨nf, vs, fs, lods⟩, rest)) : fs.length = nf := by
  simp only [parseV3Core, bind_ok_iff] at h
  obtain ⟨⟨hsz, r1⟩, h1, h⟩ := h
  simp only [ite_err_ok, bind_ok_iff] at h
  obtain ⟨-, ⟨⟨sv, r2⟩, h2, h⟩⟩ := h
  simp only [bind_ok_iff] at h
  obtain ⟨⟨sf, r3⟩, h3, h⟩ := h
  simp only [ite_err_ok, bind_ok_iff] at h
  obtain ⟨-, ⟨⟨slo, r4⟩, h4, h⟩⟩ := h
  simp only [bind_ok_iff] at h
  obtain ⟨⟨nlo, r5⟩, h5, h⟩ := h
  simp only [bind_ok_iff] at h
  obtain ⟨⟨nv, r6⟩, h6, h⟩ := h
  simp only [bind_ok_iff] at h
  obtain ⟨⟨nf', r7⟩, h7, h⟩ := h
  simp only [ite_err_ok, bind_ok_iff] at h
  obtain ⟨-, ⟨⟨verts, r8⟩, h8, h⟩⟩ := h
  simp only [bind_ok_iff] at h
  obtain ⟨⟨faces, r9⟩, h9, h⟩ := h
  simp only [bind_ok_iff] at h
  obtain ⟨⟨lods', r10⟩, h10, h⟩ := h
  simp only [POut.ok.injEq, Prod.mk.injEq, V3Core.mk.injEq] at h
  obtain ⟨⟨hnf, hvs, hfs, hlods⟩, -⟩ := h
  subst hnf hfs
  exact read_faces_length _ _ _ _ h9

/-- C3: for every v3 buffer whose reads succeed, with at least 2 LOD offsets
the face list is truncated to `min(lod_offsets[1], declared count, faces
read)`; with fewer than 2 LOD offsets no truncation occurs; and the concrete
buffer with LOD offsets `[0, 2, 5]` and 5 decoded faces yields exactly the
first 2 faces. -/
theorem parse_v3_truncates_to_lod0 :
    (∀ (body : List Nat) (nf : Nat) (vs : List IntermediateVertex)
        (fs : List (Nat × Nat × Nat)) (lods rest : List Nat) (o1 : Nat),
      parseV3Core body = POut.ok (⟨nf, vs, fs, lods⟩, rest) →
      lods[1]? = some o1 →
      ∃ m, parse_v3 body = POut.ok m ∧ m.vertices = vs ∧
        m.faces.length = min o1 (min nf fs.length)) ∧
    (∀ (body : List Nat) (nf : Nat) (vs : List IntermediateVertex)
        (fs : List (Nat × Nat × Nat)) (lods rest : List Nat),
      parseV3Core body = POut.ok (⟨nf, vs, fs, lods⟩, rest) →
      lods.length < 2 →
      parse_v3 body = POut.ok ⟨vs, fs⟩) ∧
    parse_filemesh c3Buf = POut.ok ⟨[], [(0, 0, 0), (1, 0, 0)]⟩ := by
  refine ⟨?_, ?_, by decide⟩
  · intro body nf vs fs lods rest o1 hcore ho1
    refine ⟨⟨vs, fs.take (min (min o1 nf) fs.length)⟩, ?_, rfl, ?_⟩
    · simp [parse_v3, hcore, ho1]
    · simp only [List.length_take]
      omega
  · intro body nf vs fs lods rest hcore hlen
    have hnone : lods[1]? = none := by
      rw [List.getElem?_eq_none]
      omega
    have hfl : fs.length = nf := parseV3Core_faces_length _ _ _ _ _ _ hcore
    simp [parse_v3, hcore, hnone, ← hfl]

/-- Witness for C3 at the concrete buffer `c3Buf` (5 faces read, LOD offsets
`[0, 2, 5]`): both universal parts instantiated, giving 2 retained faces. -/
theorem parse_v3_truncates_to_lod0_witness :
    ∃ m, parse_v3 (c3Buf.drop 13) = POut.ok m ∧ m.vertices = [] ∧ m.faces.length = 2 := by
  obtain ⟨m, hm, hv, hl⟩ := parse_v3_truncates_to_lod0.1 (c3Buf.drop 13) 5 []
    [(0, 0, 0), (1, 0, 0), (2, 0, 0), (3, 0, 0), (4, 0, 0)] [0, 2, 5] [] 2
    (by decide) (by decide)
  exact ⟨m, hm, hv, by simpa using hl⟩

/-! ### Claim C8: the encoders are total on meshes satisfying the invariant -/

/-- Under the face-index invariant every vertex lookup of `write_v1`
succeeds. -/
theorem v1CornersGo_isSome (m : IntermediateMesh) (scaler : ℚ) :
    ∀ fs : List (Nat × Nat × Nat),
      (∀ f ∈ fs, f.1 < m.vertices.length ∧ f.2.1 < m.vertices.length ∧
        f.2.2 < m.vertices.length) →
      ∃ l, v1CornersGo m scaler fs = some l := by
  intro fs
  induction fs with
  | nil => exact fun _ => ⟨[], rfl⟩
  | cons f fs ih =>
    intro h
    obtain ⟨h1, h2, h3⟩ := h f (List.mem_cons_self f fs)
    obtain ⟨l, hl⟩ := ih (fun g hg => h g (List.mem_cons_of_mem f hg))
    have hv1 : m.vertices.get? f.1 = some (m.vertices.get ⟨f.1, h1⟩) := List.get?_eq_get h1
    have hv2 : m.vertices.get? f.2.1 = some (m.vertices.get ⟨f.2.1, h2⟩) := List.get?_eq_get h2
    have hv3 : m.vertices.get? f.2.2 = some (m.vertices.get ⟨f.2.2, h3⟩) := List.get?_eq_get h3
    refine ⟨[v1CornerFloats scaler (m.vertices.get ⟨f.1, h1⟩),
             v1CornerFloats scaler (m.vertices.get ⟨f.2.1, h2⟩),
             v1CornerFloats scaler (m.vertices.get ⟨f.2.2, h3⟩)] ++ l, ?_⟩
    simp only [v1CornersGo, v1FaceCorners, hv1, hv2, hv3, hl]

/-- C8: on any mesh whose face indices are all in bounds, every encoder
(`write_v1` in both variants, `write_v2`, `write_v3`, `write_v4`,
`write_v5`) returns `Ok` — no error and no panic. -/
theorem encoders_total_on_valid_meshes :
    ∀ m : IntermediateMesh, faceIndicesInBounds m →
      (write_v1 m V1Version.V1_00).isSome ∧ (write_v1 m V1Version.V1_01).isSome ∧
      (write_v2 m).isSome ∧ (write_v3 m).isSome ∧ (write_v4 m).isSome ∧
      (write_v5 m).isSome := by
  intro m hb
  obtain ⟨l0, hl0⟩ := v1CornersGo_isSome m 2 m.faces hb
  obtain ⟨l1, hl1⟩ := v1CornersGo_isSome m 1 m.faces hb
  refine ⟨?_, ?_, rfl, rfl, rfl, rfl⟩
  · simp [write_v1, v1Corners, hl0]
  · simp [write_v1, v1Corners, hl1]

/-- Witness for C8 on a one-vertex one-face mesh. -/
theorem encoders_total_on_valid_meshes_witness :
    (write_v1 ⟨[dummyVertex], [(0, 0, 0)]⟩ V1Version.V1_00).isSome ∧
    (write_v1 ⟨[dummyVertex], [(0, 0, 0)]⟩ V1Version.V1_01).isSome ∧
    (write_v2 ⟨[dummyVertex], [(0, 0, 0)]⟩).isSome ∧
    (write_v3 ⟨[dummyVertex], [(0, 0, 0)]⟩).isSome ∧
    (write_v4 ⟨[dummyVertex], [(0, 0, 0)]⟩).isSome ∧
    (write_v5 ⟨[dummyVertex], [(0, 0, 0)]⟩).isSome :=
  encoders_total_on_valid_meshes ⟨[dummyVertex], [(0, 0, 0)]⟩ (by decide)

theorem take3_scaleHead3 (s : ℚ) (c : List ℚ) :
    (scaleHead3 s c).take 3 = (c.take 3).map (fun x => x * s) := by
  rcases c with _ | ⟨a, _ | ⟨b, _ | ⟨d, rest⟩⟩⟩ <;> simp [scaleHead3]

theorem posComponents_map_scale (s : ℚ) :
    ∀ cs : List (List ℚ),
      v1PosComponents (cs.map (scaleHead3 s)) = (v1PosComponents cs).map (fun x => x * s) := by
  intro cs
  induction cs with
  | nil => simp [v1PosComponents]
  | cons c cs ih =>
    simp only [v1PosComponents] at ih ⊢
    simp [take3_scaleHead3, ih]

theorem cornerFloats_scale (s : ℚ) (v : IntermediateVertex) :
    v1CornerFloats s v = scaleHead3 s (v1CornerFloats 1 v) := by
  simp [v1CornerFloats, scaleHead3]

theorem v1FaceCorners_scale (m : IntermediateMesh) (s : ℚ) (f : Nat × Nat × Nat)
    (cl : List (List ℚ)) (h : v1FaceCorners m 1 f = some cl) :
    v1FaceCorners m s f = some (cl.map (scaleHead3 s)) := by
  unfold v1FaceCorners at h ⊢
  cases hv1 : m.vertices.get? f.1 with
  | none => rw [hv1] at h; simp at h
  | some v1 =>
    cases hv2 : m.vertices.get? f.2.1 with
    | none => rw [hv1, hv2] at h; simp at h
    | some v2 =>
      cases hv3 : m.vertices.get? f.2.2 with
      | none => rw [hv1, hv2, hv3] at h; simp at h
      | some v3 =>
        rw [hv1, hv2, hv3] at h
        simp only [Option.some.injEq] at h
        simp [← h, cornerFloats_scale s]

theorem v1CornersGo_scale (m : IntermediateMesh) (s : ℚ) :
    ∀ (fs : List (Nat × Nat × Nat)) (L : List (List ℚ)),
      v1CornersGo m 1 fs = some L →
      v1CornersGo m s fs = some (L.map (scaleHead3 s)) := by
  intro fs
  induction fs with
  | nil =>
    intro L h
    simp only [v1CornersGo, Option.some.injEq] at h
    simp [v1CornersGo, ← h]
  | cons f fs ih =>
    intro L h
    simp only [v1CornersGo] at h ⊢
    cases hf : v1FaceCorners m 1 f with
    | none => rw [hf] at h; simp at h
    | some cs =>
      cases hgo : v1CornersGo m 1 fs with
      | none => rw [hf, hgo] at h; simp at h
      | some rest =>
        rw [hf, hgo] at h
        simp only [Option.some.injEq] at h
        rw [v1FaceCorners_scale m s f cs hf, ih rest hgo]
        simp [← h]

/-- C5 counterexample: the v1.00 position components are not the v1.01
position components scaled by 4. -/
theorem write_v1_positions_not_scaled_by_four :
    v1Corners c5Mesh 2 =
      some [[2, 0, 0, 0, 0, 0, 0, 0, 0], [2, 0, 0, 0, 0, 0, 0, 0, 0],
            [2, 0, 0, 0, 0, 0, 0, 0, 0]] ∧
    v1Corners c5Mesh 1 = some c5Corners1 ∧
    v1PosComponents [[2, 0, 0, 0, 0, 0, 0, 0, 0], [2, 0, 0, 0, 0, 0, 0, 0, 0],
        [2, 0, 0, 0, 0, 0, 0, 0, 0]] ≠
      (v1PosComponents c5Corners1).map (fun x => x * 4) :=
  ⟨by decide, by decide, by decide⟩

/-- C5 amended: the position components emitted by `write_v1` at v1.00 equal
those emitted at v1.01 scaled by 2 (the encoder applies the 2.0 scaler for
v1.00 and 1.0 for v1.01). -/
theorem write_v1_position_scaling :
    ∀ (m : IntermediateMesh) (cs1 : List (List ℚ)),
      v1Corners m 1 = some cs1 →
      v1Corners m 2 = some (cs1.map (scaleHead3 2)) ∧
      v1PosComponents (cs1.map (scaleHead3 2)) =
        (v1PosComponents cs1).map (fun x => x * 2) := by
  intro m cs1 h
  exact ⟨v1CornersGo_scale m 2 m.faces cs1 h, posComponents_map_scale 2 cs1⟩

/-- Witness for the amended C5 at `c5Mesh`. -/
theorem write_v1_position_scaling_witness :
    v1Corners c5Mesh 2 = some (c5Corners1.map (scaleHead3 2)) ∧
    v1PosComponents (c5Corners1.map (scaleHead3 2)) =
      (v1PosComponents c5Corners1).map (fun x => x * 2) :=
  write_v1_position_scaling c5Mesh c5Corners1 (by decide)

/-! ### Claim C7: v1 body structure -/

theorem buildV1_fst_length (vecs : List (ℚ × ℚ × ℚ)) (sh : Bool) :
    ∀ n : Nat, (buildV1 vecs sh n).1.length = 3 * n := by
  intro n
  induction n with
  | zero => rfl
  | succ n ih =>
    simp only [buildV1, List.length_append, ih, List.length_cons, List.length_nil]
    omega

theorem buildV1_snd (vecs : List (ℚ × ℚ × ℚ)) (sh : Bool) :
    ∀ n : Nat,
      (buildV1 vecs sh n).2 = (List.range n).map
        (fun i => (3 * i % 2 ^ 32, (3 * i + 1) % 2 ^ 32, (3 * i + 2) % 2 ^ 32)) := by
  intro n
  induction n with
  | zero => rfl
  | succ n ih =>
    simp only [buildV1, ih, buildV1_fst_length, List.range_succ, List.map_append, List.map_cons,
      List.map_nil]

theorem buildV1_vertex (vecs : List (ℚ × ℚ × ℚ)) (sh : Bool) :
    ∀ (n i c : Nat), i < n → c < 3 →
      (buildV1 vecs sh n).1.getD (3 * i + c) dummyVertex =
        v1BuildVertex sh (vecs.getD (9 * i + 3 * c) (0, 0, 0))
          (vecs.getD (9 * i + 3 * c + 1) (0, 0, 0))
          (vecs.getD (9 * i + 3 * c + 2) (0, 0, 0)) := by
  intro n
  induction n with
  | zero => omega
  | succ n ih =>
    intro i c hi hc
    rcases Nat.lt_succ_iff_lt_or_eq.mp hi with hlt | heq
    · have hidx : 3 * i + c < (buildV1 vecs sh n).1.length := by
        rw [buildV1_fst_length]
        omega
      simp only [buildV1]
      rw [List.getD_append _ _ _ _ hidx]
      exact ih i c hlt hc
    · subst heq
    
      have hlen : (buildV1 vecs sh i).1.length = 3 * i := buildV1_fst_length vecs sh i
      simp only [buildV1]
      rw [List.getD_append_right _ _ _ _ (by omega)]
      rw [hlen]
      interval_cases c
      · have h0 : 3 * i + 0 - 3 * i = 0 := by omega
        rw [h0]
        simp only [List.getD_cons_zero]
        have e1 : i * 9 + 0 * 3 = 9 * i + 3 * 0 := by ring
        rw [e1]
      · have h1 : 3 * i + 1 - 3 * i = 1 := by omega
        rw [h1]
        simp only [List.getD_cons_succ, List.getD_cons_zero]
        have e1 : i * 9 + 1 * 3 = 9 * i + 3 * 1 := by ring
        rw [e1]
      · have h2 : 3 * i + 2 - 3 * i = 2 := by omega
        rw [h2]
        simp only [List.getD_cons_succ, List.getD_cons_zero]
        have e1 : i * 9 + 2 * 3 = 9 * i + 3 * 2 := by ring
        rw [e1]

/-- C7 amended: for a v1 body whose first line parses as face count `F`
(below `2 ^ 64`, the `usize::from_str` bound) and whose second line yields
the bracketed vectors: the count check compares the vector count with
`F * 9` computed in `usize` (wrapping modulo `2 ^ 64`); on mismatch decoding
fails with the malformed-body error; on a match caused by overflow
(`F * 9 ≥ 2 ^ 64`) decoding panics at the `Vec::with_capacity` calls instead
of failing; otherwise (a true match, with the vector list small enough for
`Vec`'s `isize::MAX`-byte bound, as every materialized Rust `Vec` is) the
mesh has exactly `3 * F` fresh vertices (no deduplication), face `i` is
`(3i, 3i+1, 3i+2)` truncated to `u32` — exactly `(3i, 3i+1, 3i+2)` whenever
`3F ≤ 2 ^ 32` — and corner `c` of face `i` consumes vectors `9i+3c`
(position), `9i+3c+1` (normal) and `9i+3c+2` (texcoord). -/
theorem parse_v1_structure :
    ∀ (body : List Nat) (sh : Bool) (cps fl dl : List Nat) (restLines : List (List Nat))
      (F : Nat) (vecs : List (ℚ × ℚ × ℚ)),
      utf8Decode body = some cps →
      linesOf cps = fl :: dl :: restLines →
      parseUsize (trimWs fl) = some F →
      parse_bracket_vectors (trimWs dl) = POut.ok vecs →
      (vecs.length ≠ F * 9 % 2 ^ 64 →
        parse_v1 body sh = POut.err ConversionError.RobloxMeshParse) ∧
      (vecs.length = F * 9 % 2 ^ 64 → 2 ^ 64 ≤ F * 9 → parse_v1 body sh = POut.panic) ∧
      (vecs.length = F * 9 → vecs.length * 12 ≤ 2 ^ 63 - 1 →
        ∃ m, parse_v1 body sh = POut.ok m ∧
          m.vertices.length = 3 * F ∧
          m.faces = (List.range F).map
            (fun i => (3 * i % 2 ^ 32, (3 * i + 1) % 2 ^ 32, (3 * i + 2) % 2 ^ 32)) ∧
          (3 * F ≤ 2 ^ 32 →
            m.faces = (List.range F).map (fun i => (3 * i, 3 * i + 1, 3 * i + 2))) ∧
          ∀ i c, i < F → c < 3 →
            m.vertices.getD (3 * i + c) dummyVertex =
              v1BuildVertex sh (vecs.getD (9 * i + 3 * c) (0, 0, 0))
                (vecs.getD (9 * i + 3 * c + 1) (0, 0, 0))
                (vecs.getD (9 * i + 3 * c + 2) (0, 0, 0))) := by
  intro body sh cps fl dl restLines F vecs hutf hlines hF hpbv
  have hred : parse_v1 body sh =
      (if vecs.length ≠ F * 9 % 2 ^ 64 then POut.err ConversionError.RobloxMeshParse
       else if (F * 3 % 2 ^ 64) * 32 > 2 ^ 63 - 1 then POut.panic
       else if F * 12 > 2 ^ 63 - 1 then POut.panic
       else POut.ok ⟨(buildV1 vecs sh F).1, (buildV1 vecs sh F).2⟩) := by
    simp only [parse_v1, hutf, hlines, hF, hpbv]
  refine ⟨?_, ?_, ?_⟩
  · intro hne
    rw [hred, if_pos hne]
  · intro heq hge
    rw [hred, if_neg (not_not_intro heq)]
    by_cases h1 : (F * 3 % 2 ^ 64) * 32 > 2 ^ 63 - 1
    · rw [if_pos h1]
    · have h2 : F * 12 > 2 ^ 63 - 1 := by omega
      rw [if_neg h1, if_pos h2]
  · intro heq hcap
    have h9 : F * 9 < 2 ^ 64 := by omega
    have hmod : vecs.length = F * 9 % 2 ^ 64 := by
      rw [Nat.mod_eq_of_lt h9]
      exact heq
    have h3 : F * 3 < 2 ^ 64 := by omega
    have h1 : ¬ ((F * 3 % 2 ^ 64) * 32 > 2 ^ 63 - 1) := by
      rw [Nat.mod_eq_of_lt h3]
      omega
    have h2 : ¬ (F * 12 > 2 ^ 63 - 1) := by omega
    refine ⟨⟨(buildV1 vecs sh F).1, (buildV1 vecs sh F).2⟩, ?_, ?_, ?_, ?_, ?_⟩
    · rw [hred, if_neg (not_not_intro hmod), if_neg h1, if_neg h2]
    · exact buildV1_fst_length vecs sh F
    · exact buildV1_snd vecs sh F
    · intro h32
      rw [buildV1_snd]
      apply List.map_congr_left
      intro i hi
      have hiF : i < F := List.mem_range.mp hi
      rw [Nat.mod_eq_of_lt (by omega), Nat.mod_eq_of_lt (by omega),
        Nat.mod_eq_of_lt (by omega)]
    · exact fun i c hi hc => buildV1_vertex vecs sh F i c hi hc

/-- C7 counterexample to the claim as stated: at the 28-byte body
`"10248191152060862009\n[0,0,0]"` the face count parses, the bracket line
parses to one vector, and one differs from `F * 9` — yet decoding does not
fail with an error: the wrapped `usize` product equals 1, the count check
passes, and `parse_v1` panics (capacity overflow), exactly as the release
binary does. -/
theorem parse_v1_wrapped_count_panics :
    parseUsize [49, 48, 50, 52, 56, 49, 57, 49, 49, 53, 50, 48, 54, 48, 56, 54, 50, 48, 48, 57] =
      some 10248191152060862009 ∧
    parse_bracket_vectors [91, 48, 44, 48, 44, 48, 93] = POut.ok [(0, 0, 0)] ∧
    ([(0, 0, 0)] : List (ℚ × ℚ × ℚ)).length ≠ 10248191152060862009 * 9 ∧
    parse_v1 c7WrapBody true = POut.panic :=
  ⟨by decide, by decide, by decide, by decide⟩

/-- Witness for C7 on `c7Body` (face count 1, nine zero vectors): one face
`(0, 1, 2)` over three fresh vertices. -/
theorem parse_v1_structure_witness :
    ∃ m, parse_v1 c7Body true = POut.ok m ∧ m.vertices.length = 3 ∧
      m.faces = [(0, 1, 2)] := by
  obtain ⟨-, -, hok⟩ := parse_v1_structure c7Body true c7Body [49]
    [91, 48, 44, 48, 44, 48, 93, 91, 48, 44, 48, 44, 48, 93, 91, 48, 44, 48, 44, 48, 93,
     91, 48, 44, 48, 44, 48, 93, 91, 48, 44, 48, 44, 48, 93, 91, 48, 44, 48, 44, 48, 93,
     91, 48, 44, 48, 44, 48, 93, 91, 48, 44, 48, 44, 48, 93, 91, 48, 44, 48, 44, 48, 93]
    [] 1 (List.replicate 9 (0, 0, 0)) (by decide) (by decide) (by decide) (by decide)
  obtain ⟨m, hm, hlen, -, hfaces, -⟩ := hok (by decide) (by decide)
  exact ⟨m, hm, by simpa using hlen, by simpa using (hfaces (by decide))⟩

theorem parse_filemesh_v2_header (body : List Nat) :
    parse_filemesh (verStr2_00 ++ [10] ++ body) = parse_v2 body := by
  have h1 : (verStr2_00 ++ [10] ++ body).findIdx? (fun b => b = 10) = some 12 := rfl
  have h2 : (verStr2_00 ++ [10] ++ body).take 12 = verStr2_00 := rfl
  have h3 : (verStr2_00 ++ [10] ++ body).drop 13 = body := rfl
  have h4 : stripTrailingCR verStr2_00 = verStr2_00 := by decide
  have h5 : utf8Decode verStr2_00 = some verStr2_00 := by decide
  have h6 : trimWs verStr2_00 = verStr2_00 := by decide
  unfold parse_filemesh
  rw [h1]
  simp only [h2, h3, h4, h5, h6]
  norm_num [verStr1_00, verStr1_01, verStr2_00, verStr3_00, verStr3_01, verStr4_00, verStr4_01,
    verStr5_00]

/-- Reading back `count` encoded colored vertex records recovers the
vertices with V flipped. -/
theorem read_vertices_encode :
    ∀ (vs : List IntermediateVertex) (rest : List Nat),
      read_vertices (vs.flatMap encodeVertex ++ rest) vs.length true =
        POut.ok (vs.map flipV, rest) := by
  intro vs
  induction vs with
  | nil => intro rest; rfl
  | cons v vs ih =>
    intro rest
    simp only [List.flatMap_cons, List.append_assoc, List.length_cons, List.map_cons]
    simp only [read_vertices, encodeVertex, List.append_assoc, readF32_f32ToBytes, POut.ok_bind,
      List.cons_append, List.nil_append, readI8, readExact4, ih, flipV]
    simp [Prod.mk.eta]

/-- Reading back `count` encoded face records recovers the faces, provided
each index fits in a `u32`. -/
theorem read_faces_encode :
    ∀ (fs : List (Nat × Nat × Nat)) (rest : List Nat),
      (∀ f ∈ fs, f.1 < 2 ^ 32 ∧ f.2.1 < 2 ^ 32 ∧ f.2.2 < 2 ^ 32) →
      read_faces (fs.flatMap encodeFace ++ rest) fs.length = POut.ok (fs, rest) := by
  intro fs
  induction fs with
  | nil => intro rest _; rfl
  | cons f fs ih =>
    intro rest hb
    obtain ⟨hb1, hb2, hb3⟩ := hb f (List.mem_cons_self f fs)
    simp only [List.flatMap_cons, List.append_assoc, List.length_cons]
    simp only [read_faces, encodeFace, List.append_assoc, readU32_writeU32, POut.ok_bind,
      Nat.mod_eq_of_lt hb1, Nat.mod_eq_of_lt hb2, Nat.mod_eq_of_lt hb3,
      ih rest (fun g hg => hb g (List.mem_cons_of_mem f hg))]

/-- C1: decoding the output of the v2.00 encoder yields a mesh with the same
vertex count, face count, faces, positions, normals and U components, but
with every V component replaced by `1 - V` (`flipV`); in particular the round
trip is not the identity on V. -/
theorem write_v2_parse_roundtrip_flips_v :
    (∀ m : IntermediateMesh,
      m.vertices.length < 2 ^ 32 →
      m.faces.length < 2 ^ 32 →
      (∀ f ∈ m.faces, f.1 < 2 ^ 32 ∧ f.2.1 < 2 ^ 32 ∧ f.2.2 < 2 ^ 32) →
      ∀ out, write_v2 m = some out →
      parse_filemesh out = POut.ok ⟨m.vertices.map flipV, m.faces⟩) ∧
    parse_filemesh (verStr2_00 ++ [10] ++ v2Body c1Mesh) ≠ POut.ok c1Mesh := by
  have hMain : ∀ m : IntermediateMesh,
      m.vertices.length < 2 ^ 32 →
      m.faces.length < 2 ^ 32 →
      (∀ f ∈ m.faces, f.1 < 2 ^ 32 ∧ f.2.1 < 2 ^ 32 ∧ f.2.2 < 2 ^ 32) →
      ∀ out, write_v2 m = some out →
      parse_filemesh out = POut.ok ⟨m.vertices.map flipV, m.faces⟩ := by
    intro m hv hf hb out hout
    have ho : out = verStr2_00 ++ [10] ++ v2Body m := by
      simp only [write_v2, Option.some.injEq] at hout
      exact hout.symm
    subst ho
    rw [parse_filemesh_v2_header]
    have hfaces : read_faces (m.faces.flatMap encodeFace) m.faces.length =
        POut.ok (m.faces, []) := by
      have h := read_faces_encode m.faces [] hb
      simpa using h
    unfold parse_v2 v2Body
    simp only [List.append_assoc, readU16_writeU16, POut.ok_bind]
    norm_num
    simp only [List.cons_append, readU8, POut.ok_bind, List.append_assoc, readU32_writeU32,
      Nat.mod_eq_of_lt hv, Nat.mod_eq_of_lt hf]
    norm_num
    simp only [read_vertices_encode, POut.ok_bind, hfaces]
  refine ⟨hMain, ?_⟩
  intro hEq
  have h := hMain c1Mesh (by decide) (by decide) (by decide)
    (verStr2_00 ++ [10] ++ v2Body c1Mesh) rfl
  rw [h] at hEq
  norm_num [c1Mesh, flipV] at hEq

/-- Witness for C1 at `c1Mesh`: the decoded V is `1 - 1/4 = 3/4`. -/
theorem write_v2_parse_roundtrip_flips_v_witness :
    parse_filemesh (verStr2_00 ++ [10] ++ v2Body c1Mesh) =
      POut.ok ⟨[⟨(0, 0, 0), (0, 0, 0), (0, 1 - 1 / 4)⟩], []⟩ := by
  have h := write_v2_parse_roundtrip_flips_v.1 c1Mesh (by decide) (by decide) (by decide)
    (verStr2_00 ++ [10] ++ v2Body c1Mesh) rfl
  simpa [c1Mesh, flipV] using h
